import Mathlib

/-!
Verification of the Study-Sync block-extraction script (`src/extract.py`).

The script reads a Markdown file as a list of lines, scans for the first
fenced region opened by a line stripping to "```sql" and closed by a line
stripping to "```", collects the lines strictly between them, creates the
destination directory chain and writes the collected lines verbatim to a
fixed destination file.

We embed the scan loop as `extractSql`, Python `str.strip()` as
`pyStrip` (removal of leading and trailing whitespace characters), and
the file-level behaviour (open/readlines, makedirs, writelines) as a
pure transition `runExtract` on a small filesystem state.
-/

namespace StudySync

/-- The ASCII whitespace characters Python `str.strip()` removes:
space, tab, newline, carriage return, vertical tab, form feed. -/
def isPySpace (c : Char) : Bool :=
  c == ' ' || c == '\t' || c == '\n' || c == '\r' || c == '\x0b' || c == '\x0c'

/-- Embedding of Python `s.strip()`: drop whitespace from both ends. -/
def pyStrip (s : String) : String :=
  String.mk (((s.data.dropWhile isPySpace).reverse.dropWhile isPySpace).reverse)

/-- Embedding of the scan loop of `src/extract.py`:

```
in_sql = False
sql = []
for line in lines:
    if line.strip() == '```sql':
        in_sql = True
        continue
    if in_sql and line.strip() == '```':
        break
    if in_sql:
        sql.append(line)
```

`extractSql lines in_sql` returns the lines appended to `sql` when the
loop is entered with flag value `in_sql` and remaining input `lines`. -/
def extractSql : List String → Bool → List String
  | [], _ => []
  | line :: rest, in_sql =>
    if pyStrip line = "```sql" then
      extractSql rest true
    else if in_sql = true ∧ pyStrip line = "```" then
      []
    else if in_sql = true then
      line :: extractSql rest true
    else
      extractSql rest false

/-- The hardcoded source path of `src/extract.py`. -/
def sourcePath : String := "/home/ace/Projects/Study-Sync/database-design.md"

/-- The hardcoded destination directory of `src/extract.py`. -/
def destDir : String :=
  "/home/ace/Projects/Study-Sync/studysync-backend/scripts/migrations"

/-- The hardcoded destination file path of `src/extract.py`. -/
def destPath : String := destDir ++ "/001_initial_schema.sql"

/-- The parts of the filesystem the script touches: the source file
(`none` when missing or unreadable), whether the destination directory
chain exists, and the destination file content (`none` when absent). -/
structure FileSystem where
  source : Option (List String)
  destDirExists : Bool
  dest : Option String
deriving DecidableEq

/-- The only failure class of the script: a filesystem error carrying
the offending path (Python raises an `OSError` subclass from `open`). -/
inductive RunError where
  | fileAccess (path : String) : RunError
deriving DecidableEq

/-- Embedding of one run of `src/extract.py` on filesystem state `fs`:
`open(source)`/`readlines` first (failing there leaves the state
untouched and aborts), then the scan, then
`os.makedirs(destDir, exist_ok=True)`, then `open(destPath, 'w')` /
`writelines(sql)` which overwrites the destination with the
concatenation of the collected lines. Returns the new state and the
error, if any. -/
def runExtract (fs : FileSystem) : FileSystem × Option RunError :=
  match fs.source with
  | none => (fs, some (RunError.fileAccess sourcePath))
  | some lines =>
      ({ fs with
          destDirExists := true
          dest := some (String.join (extractSql lines false)) },
        none)

/-- Lines before the first opening marker are discarded: with the flag
still false, a prefix free of opening markers contributes nothing. -/
theorem extractSql_append_outside (pre : List String)
    (h : ∀ l ∈ pre, pyStrip l ≠ "```sql") (xs : List String) :
    extractSql (pre ++ xs) false = extractSql xs false := by
  induction pre with
  | nil => rfl
  | cons a t ih =>
    have ha : pyStrip a ≠ "```sql" := h a (List.mem_cons_self a t)
    have ht : ∀ l ∈ t, pyStrip l ≠ "```sql" := fun l hl => h l (List.mem_cons_of_mem a hl)
    simp only [List.cons_append, extractSql, if_neg ha]
    simp [ih ht]

/-- Inside a block, marker-free lines are copied verbatim. -/
theorem extractSql_append_inside (mid : List String)
    (h : ∀ l ∈ mid, pyStrip l ≠ "```sql" ∧ pyStrip l ≠ "```") (xs : List String) :
    extractSql (mid ++ xs) true = mid ++ extractSql xs true := by
  induction mid with
  | nil => rfl
  | cons a t ih =>
    have ha := h a (List.mem_cons_self a t)
    have ht : ∀ l ∈ t, pyStrip l ≠ "```sql" ∧ pyStrip l ≠ "```" :=
      fun l hl => h l (List.mem_cons_of_mem a hl)
    simp only [List.cons_append, extractSql, if_neg ha.1]
    simp [ha.2, ih ht]

/-- An opening-marker line flips the flag to true and is skipped,
whatever the current flag value. -/
theorem extractSql_open (o : String) (ho : pyStrip o = "```sql")
    (xs : List String) (b : Bool) :
    extractSql (o :: xs) b = extractSql xs true := by
  simp [extractSql, ho]

/-- A closing-marker line inside a block stops the scan. -/
theorem extractSql_close (c : String) (hc : pyStrip c = "```")
    (xs : List String) :
    extractSql (c :: xs) true = [] := by
  have hne : pyStrip c ≠ "```sql" := by simp [hc]
  simp [extractSql, hne, hc]

/-- With the flag true and no closing marker ahead, every remaining line
is copied except those stripping to the opening marker, which are
skipped. -/
theorem extractSql_unterminated (rest : List String)
    (h : ∀ l ∈ rest, pyStrip l ≠ "```") :
    extractSql rest true = rest.filter (fun l => pyStrip l != "```sql") := by
  induction rest with
  | nil => rfl
  | cons a t ih =>
    have ha : pyStrip a ≠ "```" := h a (List.mem_cons_self a t)
    have ht : ∀ l ∈ t, pyStrip l ≠ "```" := fun l hl => h l (List.mem_cons_of_mem a hl)
    by_cases hsql : pyStrip a = "```sql"
    · simp [extractSql, hsql, List.filter, ih ht]
    · have hb : (pyStrip a != "```sql") = true := by simp [hsql]
      simp [extractSql, hsql, ha, List.filter, ih ht, hb]

/-- If no line strips to the opening marker, nothing is collected. -/
theorem extractSql_no_open (lines : List String)
    (h : ∀ l ∈ lines, pyStrip l ≠ "```sql") :
    extractSql lines false = [] := by
  have := extractSql_append_outside lines h []
  simpa using this

/-- C1: for every input with exactly one fenced region — a prefix free of
opening-marker lines, an opening-marker line, marker-free interior lines,
a closing-marker line, then arbitrary remaining lines — the content
written to the destination equals exactly the interior lines, in order,
concatenated with no extra separators; and on the example input the
output is exactly "CREATE TABLE t (id INT);\n". -/
theorem c1_extraction_correctness
    (pre mid post : List String) (o c : String)
    (hpre : ∀ l ∈ pre, pyStrip l ≠ "```sql")
    (ho : pyStrip o = "```sql")
    (hmid : ∀ l ∈ mid, pyStrip l ≠ "```sql" ∧ pyStrip l ≠ "```")
    (hc : pyStrip c = "```") :
    (∀ fs : FileSystem, fs.source = some (pre ++ o :: mid ++ c :: post) →
        (runExtract fs).1.dest = some (String.join mid)) ∧
    String.join (extractSql
        ["# Title\n", "```sql\n", "CREATE TABLE t (id INT);\n", "```\n", "trailing text\n"]
        false) = "CREATE TABLE t (id INT);\n" := by
  constructor
  · intro fs hfs
    have hextract : extractSql (pre ++ (o :: (mid ++ c :: post))) false = mid := by
      rw [extractSql_append_outside pre hpre, extractSql_open o ho,
        extractSql_append_inside mid hmid, extractSql_close c hc]
      simp
    simp [runExtract, hfs, hextract]
  · decide

theorem c1_extraction_correctness_witness :
    (runExtract ⟨some ["# Title\n", "```sql\n", "CREATE TABLE t (id INT);\n",
        "```\n", "trailing text\n"], false, none⟩).1.dest
      = some "CREATE TABLE t (id INT);\n" ∧
    String.join (extractSql
        ["# Title\n", "```sql\n", "CREATE TABLE t (id INT);\n", "```\n", "trailing text\n"]
        false) = "CREATE TABLE t (id INT);\n" := by
  have h := c1_extraction_correctness ["# Title\n"] ["CREATE TABLE t (id INT);\n"]
    ["trailing text\n"] "```sql\n" "```\n" (by decide) (by decide) (by decide) (by decide)
  exact ⟨(h.1 _ rfl).trans (by decide), h.2⟩

/-- C2 as stated is false on the code: in the input below the third line
strips to "```sql" and is processed while the flag is true and its
stripped content is not "```", yet it is not appended to the buffer —
the opening-marker branch fires regardless of the flag. -/
theorem c2_counterexample :
    extractSql ["```sql\n", "a\n", "```sql\n", "b\n", "```\n"] false = ["a\n", "b\n"] ∧
    (["a\n", "b\n"] : List String) ≠ ["a\n", "```sql\n", "b\n"] := by
  decide

/-- C2 (amended): the opening-marker branch applies regardless of the
flag: a line stripping to "```sql" is always skipped (setting the flag),
and a line processed while the flag is true whose stripped content is
neither "```" nor "```sql" is appended unmodified. -/
theorem c2_amended_scan_branches (line : String) (rest : List String) :
    (pyStrip line = "```sql" →
        ∀ b : Bool, extractSql (line :: rest) b = extractSql rest true) ∧
    (pyStrip line ≠ "```sql" → pyStrip line ≠ "```" →
        extractSql (line :: rest) true = line :: extractSql rest true) := by
  constructor
  · intro h b
    exact extractSql_open line h rest b
  · intro h1 h2
    simp [extractSql, h1, h2]

theorem c2_amended_scan_branches_witness :
    extractSql ["```sql\n"] false = extractSql [] true ∧
    extractSql ["b\n"] true = "b\n" :: extractSql [] true :=
  ⟨(c2_amended_scan_branches "```sql\n" []).1 (by decide) false,
   (c2_amended_scan_branches "b\n" []).2 (by decide) (by decide)⟩

/-- C3: with a first pair of markers whose interior is marker-free, only
that interior is extracted, and the lines from the first closing marker
on contribute nothing: dropping them leaves the result unchanged. -/
theorem c3_first_block_only
    (pre mid post : List String) (o c : String)
    (hpre : ∀ l ∈ pre, pyStrip l ≠ "```sql")
    (ho : pyStrip o = "```sql")
    (hmid : ∀ l ∈ mid, pyStrip l ≠ "```sql" ∧ pyStrip l ≠ "```")
    (hc : pyStrip c = "```") :
    extractSql (pre ++ o :: mid ++ c :: post) false = mid ∧
    extractSql (pre ++ o :: mid ++ c :: post) false
      = extractSql (pre ++ o :: mid ++ [c]) false := by
  have hfull : extractSql (pre ++ o :: mid ++ c :: post) false = mid := by
    rw [List.append_assoc, List.cons_append, extractSql_append_outside pre hpre,
      extractSql_open o ho, extractSql_append_inside mid hmid, extractSql_close c hc]
    simp
  have hcut : extractSql (pre ++ o :: mid ++ [c]) false = mid := by
    rw [List.append_assoc, List.cons_append, extractSql_append_outside pre hpre,
      extractSql_open o ho, extractSql_append_inside mid hmid, extractSql_close c hc]
    simp
  exact ⟨hfull, hfull.trans hcut.symm⟩

theorem c3_first_block_only_witness :
    extractSql ["t\n", "```sql\n", "a\n", "```\n", "```sql\n", "b\n", "```\n"] false
      = ["a\n"] ∧
    extractSql ["t\n", "```sql\n", "a\n", "```\n", "```sql\n", "b\n", "```\n"] false
      = extractSql ["t\n", "```sql\n", "a\n", "```\n"] false :=
  c3_first_block_only ["t\n"] ["a\n"] ["```sql\n", "b\n", "```\n"] "```sql\n" "```\n"
    (by decide) (by decide) (by decide) (by decide)

/-- C4 as stated is false on the code: in the input below an opening
marker appears and no closing marker follows it, but the output is not
all lines after the opening marker — the interior line stripping to
"```sql" is skipped, not copied. -/
theorem c4_counterexample :
    extractSql ["```sql\n", "x\n", "```sql\n", "y\n"] false = ["x\n", "y\n"] ∧
    (["x\n", "y\n"] : List String) ≠ ["x\n", "```sql\n", "y\n"] := by
  decide

/-- C4 (amended): when an opening marker appears and no closing marker
follows it, the destination content equals all input lines from just
after the first opening marker to the end of input, in order, except
that lines whose stripped content equals "```sql" are skipped. -/
theorem c4_amended_unterminated
    (pre rest : List String) (o : String)
    (hpre : ∀ l ∈ pre, pyStrip l ≠ "```sql")
    (ho : pyStrip o = "```sql")
    (hrest : ∀ l ∈ rest, pyStrip l ≠ "```") :
    extractSql (pre ++ o :: rest) false
      = rest.filter (fun l => pyStrip l != "```sql") ∧
    ∀ fs : FileSystem, fs.source = some (pre ++ o :: rest) →
      (runExtract fs).1.dest
        = some (String.join (rest.filter (fun l => pyStrip l != "```sql"))) := by
  have hextract : extractSql (pre ++ o :: rest) false
      = rest.filter (fun l => pyStrip l != "```sql") := by
    rw [extractSql_append_outside pre hpre, extractSql_open o ho,
      extractSql_unterminated rest hrest]
  refine ⟨hextract, ?_⟩
  intro fs hfs
  simp [runExtract, hfs, hextract]

theorem c4_amended_unterminated_witness :
    extractSql ["h\n", "```sql\n", "x\n", "```sql\n", "y\n"] false = ["x\n", "y\n"] ∧
    (runExtract ⟨some ["h\n", "```sql\n", "x\n", "```sql\n", "y\n"], false, none⟩).1.dest
      = some "x\ny\n" := by
  have h := c4_amended_unterminated ["h\n"] ["x\n", "```sql\n", "y\n"] "```sql\n"
    (by decide) (by decide) (by decide)
  exact ⟨h.1.trans (by decide), (h.2 _ rfl).trans (by decide)⟩

/-- C5: when no input line strips to the opening marker, the run
succeeds with no error and the destination file is created empty. -/
theorem c5_no_marker_empty_output
    (lines : List String) (h : ∀ l ∈ lines, pyStrip l ≠ "```sql") :
    extractSql lines false = [] ∧
    ∀ fs : FileSystem, fs.source = some lines →
      (runExtract fs).2 = none ∧ (runExtract fs).1.dest = some "" := by
  have he := extractSql_no_open lines h
  refine ⟨he, ?_⟩
  intro fs hfs
  refine ⟨?_, ?_⟩ <;> simp [runExtract, hfs, he, String.join]

theorem c5_no_marker_empty_output_witness :
    extractSql ["# Title\n", "no markers here\n"] false = [] ∧
    (runExtract ⟨some ["# Title\n", "no markers here\n"], false, none⟩).2 = none ∧
    (runExtract ⟨some ["# Title\n", "no markers here\n"], false, none⟩).1.dest = some "" := by
  have h := c5_no_marker_empty_output ["# Title\n", "no markers here\n"] (by decide)
  exact ⟨h.1, h.2 _ rfl⟩

/-- C6: running the procedure twice on the same unchanged source yields
the same state as one run; in particular the second run fully overwrites
the destination with byte-identical content. -/
theorem c6_idempotent (fs : FileSystem) (lines : List String)
    (h : fs.source = some lines) :
    (runExtract (runExtract fs).1).1 = (runExtract fs).1 ∧
    (runExtract (runExtract fs).1).1.dest = (runExtract fs).1.dest := by
  constructor <;> simp [runExtract, h]

theorem c6_idempotent_witness :
    (runExtract (runExtract ⟨some ["```sql\n", "a\n", "```\n"], false, none⟩).1).1
      = (runExtract ⟨some ["```sql\n", "a\n", "```\n"], false, none⟩).1 ∧
    (runExtract (runExtract ⟨some ["```sql\n", "a\n", "```\n"], false, none⟩).1).1.dest
      = (runExtract ⟨some ["```sql\n", "a\n", "```\n"], false, none⟩).1.dest :=
  c6_idempotent ⟨some ["```sql\n", "a\n", "```\n"], false, none⟩
    ["```sql\n", "a\n", "```\n"] rfl

/-- C7: the directory-creation step is total and idempotent: whatever
the prior state of the directory chain, the run succeeds and leaves the
chain existing, and a second run succeeds again. -/
theorem c7_makedirs_idempotent (fs : FileSystem) (lines : List String)
    (h : fs.source = some lines) :
    ((runExtract fs).2 = none ∧ (runExtract fs).1.destDirExists = true) ∧
    ((runExtract (runExtract fs).1).2 = none ∧
      (runExtract (runExtract fs).1).1.destDirExists = true) := by
  refine ⟨⟨?_, ?_⟩, ⟨?_, ?_⟩⟩ <;> simp [runExtract, h]

theorem c7_makedirs_idempotent_witness :
    ((runExtract ⟨some ["a\n"], false, none⟩).2 = none ∧
      (runExtract ⟨some ["a\n"], false, none⟩).1.destDirExists = true) ∧
    ((runExtract (runExtract ⟨some ["a\n"], false, none⟩).1).2 = none ∧
      (runExtract (runExtract ⟨some ["a\n"], false, none⟩).1).1.destDirExists = true) :=
  c7_makedirs_idempotent ⟨some ["a\n"], false, none⟩ ["a\n"] rfl

/-- C8: when the source file is missing or unreadable, the run fails
with a file-access error identifying the source path; nothing catches
it, so the whole run aborts with that error. -/
theorem c8_source_missing_fails (fs : FileSystem) (h : fs.source = none) :
    (runExtract fs).2 = some (RunError.fileAccess sourcePath) := by
  simp [runExtract, h]

theorem c8_source_missing_fails_witness :
    (runExtract ⟨none, false, none⟩).2 = some (RunError.fileAccess sourcePath) :=
  c8_source_missing_fails ⟨none, false, none⟩ rfl

/-- C9: no line whose stripped content equals "```sql" ever reaches the
extraction buffer, wherever it occurs and whatever the flag value. -/
theorem c9_no_opening_marker_in_output (lines : List String) (b : Bool)
    (l : String) (hmem : l ∈ extractSql lines b) :
    pyStrip l ≠ "```sql" := by
  induction lines generalizing b with
  | nil => simp [extractSql] at hmem
  | cons a t ih =>
    by_cases h1 : pyStrip a = "```sql"
    · rw [extractSql_open a h1] at hmem
      exact ih true hmem
    · by_cases h2 : b = true
      · subst h2
        by_cases h3 : pyStrip a = "```"
        · rw [extractSql_close a h3] at hmem
          simp at hmem
        · have hstep : extractSql (a :: t) true = a :: extractSql t true := by
            simp [extractSql, h1, h3]
          rw [hstep] at hmem
          rcases List.mem_cons.mp hmem with h | h
          · subst h
            exact h1
          · exact ih true h
      · have hb : b = false := by
          revert h2
          cases b <;> simp
        subst hb
        have hstep : extractSql (a :: t) false = extractSql t false := by
          simp [extractSql, h1]
        rw [hstep] at hmem
        exact ih false hmem

theorem c9_no_opening_marker_in_output_witness :
    pyStrip "a\n" ≠ "```sql" :=
  c9_no_opening_marker_in_output ["```sql\n", "a\n"] false "a\n" (by decide)

/-- C10: when the source read fails, the run has no side effects: the
filesystem state is returned unchanged — no directory is created and the
destination file is neither created nor modified — and the error is
reported. -/
theorem c10_no_side_effects_on_read_failure (fs : FileSystem)
    (h : fs.source = none) :
    (runExtract fs).1 = fs ∧
    (runExtract fs).2 = some (RunError.fileAccess sourcePath) := by
  constructor <;> simp [runExtract, h]

theorem c10_no_side_effects_on_read_failure_witness :
    (runExtract ⟨none, false, some "old content"⟩).1 = ⟨none, false, some "old content"⟩ ∧
    (runExtract ⟨none, false, some "old content"⟩).2
      = some (RunError.fileAccess sourcePath) :=
  c10_no_side_effects_on_read_failure ⟨none, false, some "old content"⟩ rfl

end StudySync
